import Mathlib

/-!
Verification development for `src/web/login-qr.ts` (openclaw): a shallow
embedding of the single in-flight WhatsApp web-login attempt manager.

Modelling conventions:
- Timestamps (`Date.now()` readings) are integers, supplied explicitly at
  each point where the source calls `Date.now()`.
- External collaborators (`createWaSocket`, `waitForWaConnection`,
  `renderQrPngBase64`, the QR callback and the timers) are oracles: their
  outcomes are parameters of the embedded operations.  The event-loop
  scheduling of `waitForWebLogin`'s polling loop is captured by a list of
  per-iteration `LoopStep` records (race outcome plus clock readings).
- Side effects (socket close, socket open, `logoutWeb`, log lines) are
  recorded in an event trace.  A `close` event carries the static call
  site of `closeSocket` in the source (there are exactly two:
  `resetActiveLogin` and `restartLoginSocket`).
- Promises settle at most once; a settled promise ignores later
  resolve/reject calls.  This is built into the QR-race model and into the
  validity condition of attempt-lifetime runs.
- The model covers single operations without interleaved concurrent calls
  (the host is single-threaded between await points).
-/

/-- Which of the two static call sites of `closeSocket` performed a close:
`resetActiveLogin` (line 48) or `restartLoginSocket` (line 83). -/
inductive CloseSite where
  | reset
  | restart
deriving DecidableEq, Repr

/-- Observable side effects of the login manager, in program order. -/
inductive Ev where
  | close (sock : Nat) (site : CloseSite)
  | openSocket (sock : Nat)
  | logoutWeb
  | logInfo (msg : String)
  | logDanger (msg : String)
  | logSuccess (msg : String)
deriving DecidableEq, Repr

/-- The `ActiveLogin` record of the source.  `sock` is a transport handle
identifier; `waitPromise` is implicit (its settlements are oracle events);
`qr`, `qrDataUrl`, `error`, `errorStatus` model the optional fields. -/
structure ActiveLogin where
  id : Nat
  sock : Nat
  startedAt : Int
  qr : Option String := none
  qrDataUrl : Option String := none
  connected : Bool := false
  error : Option String := none
  errorStatus : Option Nat := none
  restartAttempted : Bool := false
  verbose : Bool := false
deriving DecidableEq, Repr

/-- Module-level mutable state: the singleton slot `activeLogin`, plus a
flag recording whether `logoutWeb` has cleared the persisted web
credentials (the observable effect of the logged-out path). -/
structure LoginState where
  activeLogin : Option ActiveLogin
  credsCleared : Bool := false
deriving DecidableEq, Repr

/-- Result record of `waitForWebLogin`. -/
structure WaitResult where
  connected : Bool
  message : String
deriving DecidableEq, Repr

/-- Result record of `startWebLoginWithQr`. -/
structure StartResult where
  qrDataUrl : Option String
  message : String
deriving DecidableEq, Repr

/-- The freshness window: ACTIVE_LOGIN_TTL_MS = 3 * 60_000. -/
def ACTIVE_LOGIN_TTL_MS : Int := 3 * 60000

/-- The numeric value of DisconnectReason.loggedOut in the baileys
transport library. -/
def loggedOutCode : Nat := 401

/- Message strings of the source, verbatim. -/

def alreadyLinkedMsg (who : String) : String :=
  "WhatsApp is already linked (" ++ who ++ "). Say “relink” if you want a fresh QR."

def qrActiveMsg : String := "QR already active. Scan it in WhatsApp → Linked Devices."

def scanQrMsg : String := "Scan this QR in WhatsApp → Linked Devices."

def failedStartMsg (m : String) : String := "Failed to start WhatsApp login: " ++ m

def failedQrMsg (m : String) : String := "Failed to get QR: " ++ m

def qrReceivedMsg : String := "WhatsApp QR received."

def qrTimeoutErrMsg : String := "Timed out waiting for WhatsApp QR"

def restartNoteMsg : String :=
  "WhatsApp asked for a restart after pairing (code 515); retrying connection once…"

def noLoginMsg : String := "No active WhatsApp login in progress."

def qrExpiredMsg : String := "The login QR expired. Ask me to generate a new one."

def stillWaitingMsg : String :=
  "Still waiting for the QR scan. Let me know when you’ve scanned it."

def loggedOutMsg : String :=
  "WhatsApp reported the session is logged out. Cleared cached web session; please scan a new QR."

def linkedMsg : String := "✅ Linked! WhatsApp is ready."

def endedMsg : String := "Login ended without a connection."

/-- JavaScript template interpolation of a possibly-undefined string
(`x` prints as itself, `undefined` prints as the word "undefined"). -/
def jsShow : Option String → String
  | some s => s
  | none => "undefined"

/-- The terminal-failure message `WhatsApp login failed: ...` built from the
current `login.error`. -/
def failedLoginMsg (e : Option String) : String :=
  "WhatsApp login failed: " ++ jsShow e

/-- JavaScript rendering `String(err)` of an `Error` object with message `m`. -/
def stringOfError (m : String) : String := "Error: " ++ m

/-- Embeds `closeSocket` (best-effort close; errors swallowed, so the model
records only the close event).  The `site` argument is provenance
instrumentation naming the static call site. -/
def closeSocket (site : CloseSite) (sock : Nat) : List Ev :=
  [.close sock site]

/-- Embeds `resetActiveLogin(reason?)`: if an attempt is present, close its
socket and clear the slot; if a reason is supplied, log it. -/
def resetActiveLogin (reason : Option String) (st : LoginState) : LoginState × List Ev :=
  let closed :=
    match st.activeLogin with
    | some l => ({ st with activeLogin := none }, closeSocket .reset l.sock)
    | none => (st, ([] : List Ev))
  match reason with
  | some r => (closed.1, closed.2 ++ [.logInfo r])
  | none => closed

/-- Embeds `isLoginFresh`: `Date.now() - login.startedAt < ACTIVE_LOGIN_TTL_MS`. -/
def isLoginFresh (l : ActiveLogin) (now : Int) : Bool :=
  now - l.startedAt < ACTIVE_LOGIN_TTL_MS

/-- Settlement of one attachment of `waitForWaConnection(login.sock)`:
fulfilled, or rejected with a formatted error string and extracted status. -/
inductive WaitOutcome where
  | fulfilled
  | rejected (err : String) (status : Option Nat)
deriving DecidableEq, Repr

/-- Effect of the continuation attached by `attachLoginWaiter` on the login
record it is allowed to mutate (the current slot occupant, when the
identity guard passes). -/
def applyOutcome (l : ActiveLogin) : WaitOutcome → ActiveLogin
  | .fulfilled => { l with connected := true }
  | .rejected e s => { l with error := some e, errorStatus := s }

/-- Embeds the continuation installed by `attachLoginWaiter(login)` acting on
the global state when the promise settles: mutate the slot occupant only if
the slot still holds an attempt with this login's id. -/
def loginWaiterCont (login : ActiveLogin) (o : WaitOutcome) (st : LoginState) : LoginState :=
  match st.activeLogin with
  | some cur =>
      if cur.id = login.id then { st with activeLogin := some (applyOutcome cur o) }
      else st
  | none => st

/-- Outcome of an `await createWaSocket(...)` call: a new socket handle, or a
thrown error (already rendered by `formatError` / carrying `getStatusCode`). -/
inductive SockResult where
  | ok (sock : Nat)
  | err (msg : String) (status : Option Nat)
deriving DecidableEq, Repr

/-- Embeds `restartLoginSocket(login, runtime)`: the one-time 515 recovery.
Returns the updated login record, the boolean result, and the event trace.
On success the source also re-runs `attachLoginWaiter`; in the model the new
attachment is implicit (later `WaitOutcome`s settle against it). -/
def restartLoginSocket (login : ActiveLogin) (res : SockResult) :
    ActiveLogin × Bool × List Ev :=
  if login.restartAttempted then (login, false, [])
  else
    let l1 := { login with restartAttempted := true }
    match res with
    | .ok s =>
        ({ l1 with sock := s, connected := false, error := none, errorStatus := none },
         true,
         [.logInfo restartNoteMsg] ++ closeSocket .restart login.sock ++ [.openSocket s])
    | .err m code =>
        ({ l1 with error := some m, errorStatus := code },
         false,
         [.logInfo restartNoteMsg] ++ closeSocket .restart login.sock)

/-- Outcome of one `Promise.race([login.waitPromise.then(...), timeout])`. -/
inductive RaceOutcome where
  | timeout
  | settled (o : WaitOutcome)
deriving DecidableEq, Repr

/-- Oracle data for one iteration of `waitForWebLogin`'s polling loop:
the `Date.now()` reading at the top of the loop, the race outcome, the
`createWaSocket` outcome consulted if this iteration restarts, and the
`Date.now()` reading of the post-restart freshness check. -/
structure LoopStep where
  nowTop : Int
  race : RaceOutcome
  sockRes : SockResult
  nowRestart : Int
deriving DecidableEq, Repr

/-- Terminal-failure tail of the loop body: build the message from
`login.error`, reset with it as reason, log danger, return. -/
def failLogin (st : LoginState) (login : ActiveLogin) (trPre : List Ev) :
    LoginState × WaitResult × List Ev :=
  let msg := failedLoginMsg login.error
  let r := resetActiveLogin (some msg) st
  (r.1, ⟨false, msg⟩, trPre ++ r.2 ++ [.logDanger msg])

/-- Embeds the `while (true)` polling loop of `waitForWebLogin`.  Invariant
at every call: `st.activeLogin = some login` (the local `login` aliases the
slot occupant, so the waiter continuation's identity guard passes and its
mutation is visible through the alias — see `loginWaiterCont_slot`).
Returns `none` when the supplied oracle steps run out before the loop does. -/
def waitLoop (deadline : Int) (st : LoginState) (login : ActiveLogin) :
    List LoopStep → Option (LoginState × WaitResult × List Ev)
  | [] => none
  | step :: rest =>
    if deadline - step.nowTop ≤ 0 then
      some (st, ⟨false, stillWaitingMsg⟩, [])
    else
      match step.race with
      | .timeout => some (st, ⟨false, stillWaitingMsg⟩, [])
      | .settled o =>
        let login1 := applyOutcome login o
        let st1 : LoginState := { st with activeLogin := some login1 }
        match login1.error with
        | some _ =>
          if login1.errorStatus = some loggedOutCode then
            let st2 := { st1 with credsCleared := true }
            let r := resetActiveLogin (some loggedOutMsg) st2
            some (r.1, ⟨false, loggedOutMsg⟩,
              [.logoutWeb] ++ r.2 ++ [.logDanger loggedOutMsg])
          else if login1.errorStatus = some 515 then
            let rs := restartLoginSocket login1 step.sockRes
            let login2 := rs.1
            let st2 := { st1 with activeLogin := some login2 }
            if rs.2.1 && isLoginFresh login2 step.nowRestart then
              (waitLoop deadline st2 login2 rest).map
                (fun r => (r.1, r.2.1, rs.2.2 ++ r.2.2))
            else
              some (failLogin st2 login2 rs.2.2)
          else
            some (failLogin st1 login1 [])
        | none =>
          if login1.connected then
            let r := resetActiveLogin none st1
            some (r.1, ⟨true, linkedMsg⟩, [.logSuccess linkedMsg] ++ r.2)
          else
            some (st1, ⟨false, endedMsg⟩, [])

/-- Embeds `waitForWebLogin(opts)`.  `timeoutMs` is `opts.timeoutMs`;
`now0` is the `Date.now()` of the entry freshness check, `nowDeadline` the
one of the deadline computation; `steps` drives the polling loop. -/
def waitForWebLogin (timeoutMs : Option Int) (now0 nowDeadline : Int)
    (steps : List LoopStep) (st : LoginState) :
    Option (LoginState × WaitResult × List Ev) :=
  match st.activeLogin with
  | none => some (st, ⟨false, noLoginMsg⟩, [])
  | some login =>
    if isLoginFresh login now0 then
      waitLoop (nowDeadline + max (timeoutMs.getD 120000) 1000) st login steps
    else
      let r := resetActiveLogin none st
      some (r.1, ⟨false, qrExpiredMsg⟩, r.2)

/-- Sanity lemma: when the slot holds exactly the login the waiter was
attached for, the guarded continuation acts as `applyOutcome` on it.  This
justifies `waitLoop` inlining the continuation under its invariant. -/
theorem loginWaiterCont_slot (login : ActiveLogin) (o : WaitOutcome) (c : Bool) :
    loginWaiterCont login o ⟨some login, c⟩ =
      ⟨some (applyOutcome login o), c⟩ := by
  simp [loginWaiterCont]

/-- An event delivered to the QR race of `startWebLoginWithQr`: the
transport's `onQr` callback firing with a code, or the `qrTimer` firing. -/
inductive QrEvent where
  | emit (code : String)
  | timer
deriving DecidableEq, Repr

/-- State of the QR race: the singleton slot as the callbacks see it, the
`qrPromise` settlement (`Except` error / code; `none` while pending — a
settled promise ignores later resolve/reject calls), and whether
`clearTimeout(qrTimer)` has run. -/
structure QrRace where
  slot : Option ActiveLogin
  settled : Option (Except String String)
  timerCleared : Bool
deriving Repr

/-- Embeds the `onQr` callback registered with `createWaSocket`: drop the
code when no attempt is installed or the current attempt already has one;
otherwise record it, clear the timer, log, and resolve `qrPromise`. -/
def onQrCallback (qr : String) (r : QrRace) : QrRace × List Ev :=
  match r.slot with
  | none => (r, [])
  | some l =>
    if l.qr.isSome then (r, [])
    else
      ({ slot := some { l with qr := some qr },
         timerCleared := true,
         settled := if r.settled.isNone then some (.ok qr) else r.settled },
       [.logInfo qrReceivedMsg])

/-- Embeds the `qrTimer` callback: `rejectQr(new Error(...))`.  A cleared
timer never fires; rejecting an already-settled promise is a no-op. -/
def qrTimerFire (r : QrRace) : QrRace :=
  if r.timerCleared then r
  else if r.settled.isNone then { r with settled := some (.error qrTimeoutErrMsg) }
  else r

/-- Deliver one QR-race event, accumulating the trace. -/
def qrRaceStep (acc : QrRace × List Ev) (e : QrEvent) : QrRace × List Ev :=
  match e with
  | .emit c =>
    let r := onQrCallback c acc.1
    (r.1, acc.2 ++ r.2)
  | .timer => (qrTimerFire acc.1, acc.2)

/-- Deliver a list of QR-race events in order. -/
def runQrEvents (r : QrRace) (es : List QrEvent) : QrRace × List Ev :=
  es.foldl qrRaceStep (r, [])

/-- Options of `startWebLoginWithQr`.  `timeoutMs` only sets the real-time
delay of the QR timer (`max(timeoutMs ?? 30000, 5000)` ms); event order,
which is all the model observes, is carried by the oracle's event lists. -/
structure StartOpts where
  verbose : Bool := false
  timeoutMs : Option Int := none
  force : Bool := false

/-- Oracle for one `startWebLoginWithQr` call: the credential-store answers,
the `createWaSocket` outcome, the fresh `randomUUID`, the `Date.now()`
reading, the QR-race events delivered while `createWaSocket` is awaited
(slot still empty) and after the new login is installed, and the
`renderQrPngBase64` rendering function. -/
structure StartOracle where
  hasWeb : Bool
  selfE164 : Option String
  selfJid : Option String
  sockRes : SockResult
  newId : Nat
  now : Int
  preEvents : List QrEvent
  postEvents : List QrEvent
  png : String → String

/-- The reuse guard `activeLogin && isLoginFresh(activeLogin) &&
activeLogin.qrDataUrl` of `startWebLoginWithQr`. -/
def canReuse (st : LoginState) (now : Int) : Bool :=
  match st.activeLogin with
  | some l => isLoginFresh l now && l.qrDataUrl.isSome
  | none => false

/-- Embeds `startWebLoginWithQr(opts)`.  Total: after the supplied race
events, a still-pending `qrPromise` is settled by the timer (which is armed
before `createWaSocket` and only ever cleared by a resolving `onQr`), so
every execution returns a result record. -/
def startWebLoginWithQr (opts : StartOpts) (o : StartOracle) (st : LoginState) :
    LoginState × StartResult × List Ev :=
  if o.hasWeb && !opts.force then
    let who := (o.selfE164.orElse fun _ => o.selfJid).getD "unknown"
    (st, ⟨none, alreadyLinkedMsg who⟩, [])
  else if canReuse st o.now then
    (st, ⟨st.activeLogin.bind (fun l => l.qrDataUrl), qrActiveMsg⟩, [])
  else
    let r0 := resetActiveLogin none st
    let race0 : QrRace := ⟨r0.1.activeLogin, none, false⟩
    let pre := runQrEvents race0 o.preEvents
    match o.sockRes with
    | .err m _ =>
      let r1 := resetActiveLogin none r0.1
      (r1.1, ⟨none, failedStartMsg m⟩, r0.2 ++ pre.2 ++ r1.2)
    | .ok sockId =>
      let login : ActiveLogin :=
        { id := o.newId, sock := sockId, startedAt := o.now,
          connected := false, restartAttempted := false, verbose := opts.verbose }
      let race1 : QrRace := { pre.1 with slot := some login }
      let post := runQrEvents race1 o.postEvents
      let raceF := if post.1.settled.isSome then post.1 else qrTimerFire post.1
      let stInstalled : LoginState := { r0.1 with activeLogin := raceF.slot }
      let trOpen := r0.2 ++ pre.2 ++ [.openSocket sockId] ++ post.2
      match raceF.settled with
      | some (.ok qr) =>
        let url := "data:image/png;base64," ++ o.png qr
        let loginF := { raceF.slot.getD login with qrDataUrl := some url }
        ({ stInstalled with activeLogin := some loginF }, ⟨some url, scanQrMsg⟩, trOpen)
      | some (.error m) =>
        let r1 := resetActiveLogin none stInstalled
        (r1.1, ⟨none, failedQrMsg (stringOfError m)⟩, trOpen ++ r1.2)
      | none =>
        let r1 := resetActiveLogin none stInstalled
        (r1.1, ⟨none, failedQrMsg (stringOfError qrTimeoutErrMsg)⟩, trOpen ++ r1.2)

/-- One event in the lifetime of a single attempt: the current attachment's
`waitForWaConnection` promise settling (running the waiter continuation), or
`waitForWebLogin` invoking `restartLoginSocket`. -/
inductive LifeEv where
  | settle (o : WaitOutcome)
  | restart (r : SockResult)
deriving Repr

/-- The reachable courses of one attempt's marker fields, from creation to
disposal, as the source generates them: a given attachment's promise settles
at most once (`settledFlag` tracks whether the current attachment has
already settled; a successful restart installs a fresh attachment), and
`restartLoginSocket` is invoked only from the branch of `waitForWebLogin`
that has just observed a rejection recorded as `error` with status 515.
Returns the list of login states after each event, or `none` if the event
list is not a course the source can produce. -/
def lifeStates (l : ActiveLogin) (settledFlag : Bool) :
    List LifeEv → Option (List ActiveLogin)
  | [] => some []
  | (.settle o) :: rest =>
    if settledFlag then none
    else
      let l1 := applyOutcome l o
      (lifeStates l1 true rest).map (fun ss => l1 :: ss)
  | (.restart r) :: rest =>
    if settledFlag && l.error.isSome && l.errorStatus == some 515 then
      let rs := restartLoginSocket l r
      (lifeStates rs.1 (!rs.2.1) rest).map (fun ss => rs.1 :: ss)
    else none

/-- Holds when no close event in the trace was performed by
`restartLoginSocket` — i.e. every transport close went through
`resetActiveLogin`. -/
def onlyResetCloses (tr : List Ev) : Bool :=
  tr.all fun e =>
    match e with
    | .close _ .restart => false
    | _ => true

/-- Number of close events a trace attributes to `restartLoginSocket`. -/
def restartCloses (tr : List Ev) : Nat :=
  (tr.filter fun e =>
    match e with
    | .close _ .restart => true
    | _ => false).length

/-- Number of close events a trace attributes to `resetActiveLogin`. -/
def resetCloses (tr : List Ev) : Nat :=
  (tr.filter fun e =>
    match e with
    | .close _ .reset => true
    | _ => false).length

/-- C5: a continuation attached for attempt id A mutates nothing when, at
settlement time, the singleton slot is empty or holds an attempt with a
different id — it is a guaranteed no-op. -/
theorem c5_stale_continuation_noop (login : ActiveLogin) (o : WaitOutcome)
    (st : LoginState)
    (h : st.activeLogin = none ∨ ∃ b, st.activeLogin = some b ∧ b.id ≠ login.id) :
    loginWaiterCont login o st = st := by
  rcases h with h | ⟨b, hb, hne⟩
  · simp [loginWaiterCont, h]
  · simp [loginWaiterCont, hb, hne]

/-- Witness for C5: a fulfilled continuation of attempt 1 leaves a state
whose slot holds attempt 2 untouched. -/
theorem c5_stale_continuation_noop_witness :
    loginWaiterCont { id := 1, sock := 10, startedAt := 0 } .fulfilled
        { activeLogin := some { id := 2, sock := 11, startedAt := 0 } } =
      { activeLogin := some { id := 2, sock := 11, startedAt := 0 } } :=
  c5_stale_continuation_noop _ _ _ (Or.inr ⟨_, rfl, by decide⟩)

/-- C8: an attempt whose `startedAt` lies more than TTL in the past is
reported stale by `waitForWebLogin`: the singleton is disposed exactly once
(the trace is a single reset-close of its socket, the slot is cleared) and
the QR-expired message is returned with connected = false. -/
theorem c8_stale_disposed_once (timeoutMs : Option Int) (now0 nowD : Int)
    (steps : List LoopStep) (st : LoginState) (l : ActiveLogin)
    (hslot : st.activeLogin = some l)
    (hstale : ACTIVE_LOGIN_TTL_MS < now0 - l.startedAt) :
    waitForWebLogin timeoutMs now0 nowD steps st =
      some ({ st with activeLogin := none }, ⟨false, qrExpiredMsg⟩,
        [.close l.sock .reset]) := by
  have hf : isLoginFresh l now0 = false := by
    simp only [isLoginFresh, decide_eq_false_iff_not, not_lt]
    omega
  simp [waitForWebLogin, hslot, hf, resetActiveLogin, closeSocket]

/-- Witness for C8 at a concrete stale attempt. -/
theorem c8_stale_disposed_once_witness :
    waitForWebLogin none 200000 200000 []
        { activeLogin := some { id := 1, sock := 10, startedAt := 0 } } =
      some ({ activeLogin := none }, ⟨false, qrExpiredMsg⟩,
        [.close 10 .reset]) :=
  c8_stale_disposed_once none 200000 200000 [] _ _ rfl (by decide)

/-- C9: when the first race of the polling loop is decided by the deadline
(the remaining budget is already exhausted, or the timer wins the race)
before the completion signal settles, `waitForWebLogin` returns the
still-waiting message and leaves the state exactly as it was: same slot,
same attempt, no side effect (in particular no close of its transport). -/
theorem c9_timeout_keeps_attempt (timeoutMs : Option Int) (now0 nowD : Int)
    (step : LoopStep) (rest : List LoopStep) (st : LoginState) (l : ActiveLogin)
    (hslot : st.activeLogin = some l)
    (hfresh : isLoginFresh l now0 = true)
    (h : nowD + max (timeoutMs.getD 120000) 1000 - step.nowTop ≤ 0 ∨
         step.race = .timeout) :
    waitForWebLogin timeoutMs now0 nowD (step :: rest) st =
      some (st, ⟨false, stillWaitingMsg⟩, []) := by
  by_cases h2 : nowD + max (timeoutMs.getD 120000) 1000 - step.nowTop ≤ 0
  · simp [waitForWebLogin, hslot, hfresh, waitLoop, h2]
  · rcases h with h | h
    · exact absurd h h2
    · simp [waitForWebLogin, hslot, hfresh, waitLoop, h2, h]

/-- Witness for C9: a 1000 ms budget exhausted at the first poll leaves the
concrete attempt in place. -/
theorem c9_timeout_keeps_attempt_witness :
    waitForWebLogin (some 1000) 0 0 [⟨5000, .timeout, .ok 0, 0⟩]
        { activeLogin := some { id := 1, sock := 10, startedAt := 0 } } =
      some ({ activeLogin := some { id := 1, sock := 10, startedAt := 0 } },
        ⟨false, stillWaitingMsg⟩, []) :=
  c9_timeout_keeps_attempt (some 1000) 0 0 _ [] _ _ rfl (by decide)
    (Or.inl (by norm_num))

/-- C7: a settled completion signal recorded as a rejection whose status is
the logged-out code makes `waitForWebLogin` clear the persisted credentials
(`logoutWeb`), dispose the singleton (reset-close of the transport, slot
cleared) and return connected = false with the logged-out message. -/
theorem c7_logged_out_clears (timeoutMs : Option Int) (now0 nowD t1 tR : Int)
    (e : String) (sr : SockResult) (rest : List LoopStep) (st : LoginState)
    (l : ActiveLogin)
    (hslot : st.activeLogin = some l)
    (hfresh : isLoginFresh l now0 = true)
    (ht : 0 < nowD + max (timeoutMs.getD 120000) 1000 - t1) :
    waitForWebLogin timeoutMs now0 nowD
        (⟨t1, .settled (.rejected e (some loggedOutCode)), sr, tR⟩ :: rest) st =
      some ({ activeLogin := none, credsCleared := true },
        ⟨false, loggedOutMsg⟩,
        [.logoutWeb, .close l.sock .reset, .logInfo loggedOutMsg,
         .logDanger loggedOutMsg]) := by
  have h2 : ¬(nowD + max (timeoutMs.getD 120000) 1000 - t1 ≤ 0) := by omega
  simp [waitForWebLogin, hslot, hfresh, waitLoop, h2, applyOutcome,
    resetActiveLogin, closeSocket]

/-- Witness for C7 at a concrete logged-out rejection. -/
theorem c7_logged_out_clears_witness :
    waitForWebLogin none 0 0
        [⟨1, .settled (.rejected "logged out" (some loggedOutCode)), .ok 0, 0⟩]
        { activeLogin := some { id := 1, sock := 10, startedAt := 0 } } =
      some ({ activeLogin := none, credsCleared := true },
        ⟨false, loggedOutMsg⟩,
        [.logoutWeb, .close 10 .reset, .logInfo loggedOutMsg,
         .logDanger loggedOutMsg]) :=
  c7_logged_out_clears none 0 0 1 0 "logged out" (.ok 0) [] _ _ rfl (by decide)
    (by norm_num)

/-- C6: with no persisted-credentials short-circuit and a fresh attempt that
already holds a rendered artifact, `startWebLoginWithQr` returns that same
artifact unchanged, mutates nothing and opens no second transport session
(empty trace); hence a second such call returns the same artifact again. -/
theorem c6_idempotent_repoll (opts : StartOpts) (o : StartOracle)
    (st : LoginState) (l : ActiveLogin) (u : String)
    (hnos : o.hasWeb = false ∨ opts.force = true)
    (hslot : st.activeLogin = some l)
    (hfresh : isLoginFresh l o.now = true)
    (hqr : l.qrDataUrl = some u) :
    startWebLoginWithQr opts o st = (st, ⟨some u, qrActiveMsg⟩, []) ∧
    ∀ (opts2 : StartOpts) (o2 : StartOracle),
      (o2.hasWeb = false ∨ opts2.force = true) →
      isLoginFresh l o2.now = true →
      startWebLoginWithQr opts2 o2 (startWebLoginWithQr opts o st).1 =
        (st, ⟨some u, qrActiveMsg⟩, []) := by
  have key : ∀ (opts' : StartOpts) (o' : StartOracle),
      (o'.hasWeb = false ∨ opts'.force = true) →
      isLoginFresh l o'.now = true →
      startWebLoginWithQr opts' o' st = (st, ⟨some u, qrActiveMsg⟩, []) := by
    intro opts' o' hnos' hfresh'
    have hif : (o'.hasWeb && !opts'.force) = false := by
      rcases hnos' with h | h <;> simp [h]
    simp [startWebLoginWithQr, hif, canReuse, hslot, hfresh', hqr]
  refine ⟨key opts o hnos hfresh, ?_⟩
  intro opts2 o2 hnos2 hfresh2
  rw [key opts o hnos hfresh]
  exact key opts2 o2 hnos2 hfresh2

/-- Witness for C6 at a concrete pending attempt with a rendered artifact. -/
theorem c6_idempotent_repoll_witness :
    startWebLoginWithQr {}
        { hasWeb := false, selfE164 := none, selfJid := none, sockRes := .ok 20,
          newId := 7, now := 5, preEvents := [], postEvents := [],
          png := fun s => s }
        { activeLogin := some
            { id := 1, sock := 10, startedAt := 0, qrDataUrl := some "data:u" } } =
      ({ activeLogin := some
            { id := 1, sock := 10, startedAt := 0, qrDataUrl := some "data:u" } },
        ⟨some "data:u", qrActiveMsg⟩, []) :=
  (c6_idempotent_repoll {} _ _ _ "data:u" (Or.inl rfl) rfl (by decide) rfl).1

/-- C1: the 515 restart policy.  (i) On a first 515 with a successful
reopen, `restartLoginSocket` performs the one silent reconnect: the old
transport is closed and a new one opened under the same attempt id, with
`connected`, `error` and `errorStatus` cleared and `restartAttempted` set
(the re-attach of the continuation is the subsequent settles applying to
the new attachment).  (ii) When `restartAttempted` is already true, a 515
triggers no reconnect at all.  (iii) A run of `waitForWebLogin` that
receives 515 twice performs exactly one reconnect and then ends in the
terminal failure result: attempt disposed (slot cleared, socket closed) and
connected = false with the formatted failure message. -/
theorem c1_restart_once (tms : Option Int) (now0 nowD t1 tR t2 tR2 : Int)
    (st : LoginState) (l : ActiveLogin) (e1 e2 : String) (s2 : Nat)
    (r2 : SockResult)
    (hslot : st.activeLogin = some l)
    (hfresh0 : isLoginFresh l now0 = true)
    (hra : l.restartAttempted = false)
    (ht1 : 0 < nowD + max (tms.getD 120000) 1000 - t1)
    (ht2 : 0 < nowD + max (tms.getD 120000) 1000 - t2)
    (hfreshR : isLoginFresh l tR = true) :
    (∀ (x : ActiveLogin) (s : Nat), x.restartAttempted = false →
        restartLoginSocket x (.ok s) =
          ({ x with
              sock := s, connected := false, error := none,
              errorStatus := none, restartAttempted := true }, true,
           [.logInfo restartNoteMsg, .close x.sock .restart, .openSocket s])) ∧
    (∀ (x : ActiveLogin) (r : SockResult), x.restartAttempted = true →
        restartLoginSocket x r = (x, false, [])) ∧
    waitForWebLogin tms now0 nowD
        [⟨t1, .settled (.rejected e1 (some 515)), .ok s2, tR⟩,
         ⟨t2, .settled (.rejected e2 (some 515)), r2, tR2⟩] st =
      some ({ st with activeLogin := none },
        ⟨false, failedLoginMsg (some e2)⟩,
        [.logInfo restartNoteMsg, .close l.sock .restart, .openSocket s2,
         .close s2 .reset, .logInfo (failedLoginMsg (some e2)),
         .logDanger (failedLoginMsg (some e2))]) := by
  refine ⟨?_, ?_, ?_⟩
  · intro x s hx
    simp [restartLoginSocket, hx, closeSocket]
  · intro x r hx
    simp [restartLoginSocket, hx]
  · have h1 : ¬(nowD + max (tms.getD 120000) 1000 - t1 ≤ 0) := by omega
    have h2 : ¬(nowD + max (tms.getD 120000) 1000 - t2 ≤ 0) := by omega
    have hR : tR - l.startedAt < ACTIVE_LOGIN_TTL_MS := by
      simpa [isLoginFresh] using hfreshR
    have h0 : now0 - l.startedAt < ACTIVE_LOGIN_TTL_MS := by
      simpa [isLoginFresh] using hfresh0
    simp [waitForWebLogin, hslot, h0, waitLoop, h1, h2, applyOutcome,
      restartLoginSocket, hra, loggedOutCode, failLogin, resetActiveLogin,
      closeSocket, failedLoginMsg, jsShow, isLoginFresh, hR]

/-- Invariant lemma for attempt lifetimes: along any course the source can
produce, the two terminal markers are never simultaneously set; while the
current attachment has not yet settled, both markers are clear. -/
theorem lifeStates_exclusive :
    ∀ (evs : List LifeEv) (l : ActiveLogin) (flag : Bool),
      ¬(l.connected = true ∧ l.error.isSome = true) →
      (flag = false → l.connected = false ∧ l.error = none) →
      ∀ states, lifeStates l flag evs = some states →
      ∀ s ∈ states, ¬(s.connected = true ∧ s.error.isSome = true) := by
  intro evs
  induction evs with
  | nil =>
    intro l flag h1 h2 states h s hs
    simp only [lifeStates, Option.some.injEq] at h
    subst h
    simp at hs
  | cons e rest ih =>
    intro l flag h1 h2 states h s hs
    cases e with
    | settle o =>
      simp only [lifeStates] at h
      cases flag with
      | true => simp at h
      | false =>
        obtain ⟨hc, he⟩ := h2 rfl
        simp only [Bool.false_eq_true, if_false] at h
        obtain ⟨ss, hss, rfl⟩ := Option.map_eq_some'.mp h
        have hex : ¬((applyOutcome l o).connected = true ∧
            (applyOutcome l o).error.isSome = true) := by
          cases o <;> simp [applyOutcome, hc, he]
        simp only [List.mem_cons] at hs
        rcases hs with rfl | hmem
        · exact hex
        · exact ih (applyOutcome l o) true hex (by simp) ss hss s hmem
    | restart r =>
      simp only [lifeStates] at h
      by_cases hguard : (flag && l.error.isSome && l.errorStatus == some 515) = true
      · rw [if_pos hguard] at h
        have herr : l.error.isSome = true := by
          simp only [Bool.and_eq_true] at hguard
          exact hguard.1.2
        have hconn : l.connected = false := by
          cases hcl : l.connected
          · rfl
          · exact absurd ⟨hcl, herr⟩ h1
        by_cases hatt : l.restartAttempted = true
        · have hrs : restartLoginSocket l r = (l, false, []) := by
            simp [restartLoginSocket, hatt]
          simp only [hrs, Bool.not_false] at h
          obtain ⟨ss, hss, rfl⟩ := Option.map_eq_some'.mp h
          simp only [List.mem_cons] at hs
          rcases hs with rfl | hmem
          · exact h1
          · exact ih l true h1 (by simp) ss hss s hmem
        · have hatt' : l.restartAttempted = false := by simpa using hatt
          cases r with
          | ok sck =>
            have hrs : restartLoginSocket l (.ok sck) =
                ({ l with
                    sock := sck, connected := false, error := none,
                    errorStatus := none, restartAttempted := true }, true,
                 [.logInfo restartNoteMsg, .close l.sock .restart,
                  .openSocket sck]) := by
              simp [restartLoginSocket, hatt', closeSocket]
            simp only [hrs, Bool.not_true] at h
            obtain ⟨ss, hss, rfl⟩ := Option.map_eq_some'.mp h
            simp only [List.mem_cons] at hs
            rcases hs with rfl | hmem
            · simp
            · exact ih _ false (by simp) (fun _ => ⟨rfl, rfl⟩) ss hss s hmem
          | err m code =>
            have hrs : restartLoginSocket l (.err m code) =
                ({ l with
                    error := some m, errorStatus := code,
                    restartAttempted := true }, false,
                 [.logInfo restartNoteMsg, .close l.sock .restart]) := by
              simp [restartLoginSocket, hatt', closeSocket]
            simp only [hrs, Bool.not_false] at h
            obtain ⟨ss, hss, rfl⟩ := Option.map_eq_some'.mp h
            simp only [List.mem_cons] at hs
            rcases hs with rfl | hmem
            · simp [hconn]
            · exact ih _ true (by simp [hconn]) (by simp) ss hss s hmem
      · rw [if_neg hguard] at h
        simp at h

@[simp] theorem restartCloses_nil : restartCloses [] = 0 := rfl

@[simp] theorem restartCloses_append (a b : List Ev) :
    restartCloses (a ++ b) = restartCloses a + restartCloses b := by
  simp [restartCloses, List.filter_append]

@[simp] theorem restartCloses_close_restart (s : Nat) (tr : List Ev) :
    restartCloses (.close s .restart :: tr) = restartCloses tr + 1 := by
  simp [restartCloses, List.filter_cons]

@[simp] theorem restartCloses_close_reset (s : Nat) (tr : List Ev) :
    restartCloses (.close s .reset :: tr) = restartCloses tr := by
  simp [restartCloses, List.filter_cons]

@[simp] theorem restartCloses_openSocket (s : Nat) (tr : List Ev) :
    restartCloses (.openSocket s :: tr) = restartCloses tr := by
  simp [restartCloses, List.filter_cons]

@[simp] theorem restartCloses_logoutWeb (tr : List Ev) :
    restartCloses (.logoutWeb :: tr) = restartCloses tr := by
  simp [restartCloses, List.filter_cons]

@[simp] theorem restartCloses_logInfo (m : String) (tr : List Ev) :
    restartCloses (.logInfo m :: tr) = restartCloses tr := by
  simp [restartCloses, List.filter_cons]

@[simp] theorem restartCloses_logDanger (m : String) (tr : List Ev) :
    restartCloses (.logDanger m :: tr) = restartCloses tr := by
  simp [restartCloses, List.filter_cons]

@[simp] theorem restartCloses_logSuccess (m : String) (tr : List Ev) :
    restartCloses (.logSuccess m :: tr) = restartCloses tr := by
  simp [restartCloses, List.filter_cons]

@[simp] theorem restartCloses_reset (reason : Option String) (st : LoginState) :
    restartCloses (resetActiveLogin reason st).2 = 0 := by
  cases h : st.activeLogin <;> cases reason <;>
    simp [resetActiveLogin, h, closeSocket]

@[simp] theorem restartCloses_failLogin (st : LoginState) (l : ActiveLogin)
    (tr : List Ev) :
    restartCloses (failLogin st l tr).2.2 = restartCloses tr := by
  simp [failLogin]

theorem restartCloses_restartLoginSocket (l : ActiveLogin) (r : SockResult) :
    restartCloses (restartLoginSocket l r).2.2 =
      if l.restartAttempted then 0 else 1 := by
  by_cases h : l.restartAttempted = true
  · simp [restartLoginSocket, h, restartCloses]
  · have h' : l.restartAttempted = false := by simpa using h
    cases r <;> simp [restartLoginSocket, h', restartCloses, closeSocket]

theorem restartLoginSocket_true_flag (l : ActiveLogin) (r : SockResult)
    (h : (restartLoginSocket l r).2.1 = true) :
    (restartLoginSocket l r).1.restartAttempted = true := by
  by_cases ha : l.restartAttempted = true
  · simp [restartLoginSocket, ha] at h
  · have ha' : l.restartAttempted = false := by simpa using ha
    cases r with
    | ok s => simp [restartLoginSocket, ha']
    | err m c => simp [restartLoginSocket, ha'] at h

theorem applyOutcome_restartAttempted (l : ActiveLogin) (o : WaitOutcome) :
    (applyOutcome l o).restartAttempted = l.restartAttempted := by
  cases o <;> simp [applyOutcome]

/-- The polling loop closes a transport outside `resetActiveLogin` at most
once: once `restartAttempted` is set, `restartLoginSocket` never closes
again. -/
theorem waitLoop_restartCloses (deadline : Int) :
    ∀ (steps : List LoopStep) (st : LoginState) (login : ActiveLogin)
      (out : LoginState × WaitResult × List Ev),
      waitLoop deadline st login steps = some out →
      restartCloses out.2.2 ≤ if login.restartAttempted then 0 else 1 := by
  intro steps
  induction steps with
  | nil =>
    intro st login out h
    simp [waitLoop] at h
  | cons step rest ih =>
    intro st login out h
    by_cases hd : deadline - step.nowTop ≤ 0
    · simp only [waitLoop, if_pos hd, Option.some.injEq] at h
      subst h
      simp
    · cases hrace : step.race with
      | timeout =>
        simp only [waitLoop, if_neg hd, hrace, Option.some.injEq] at h
        subst h
        simp
      | settled o =>
        simp only [waitLoop, if_neg hd, hrace] at h
        cases herr : (applyOutcome login o).error with
        | none =>
          simp only [herr] at h
          by_cases hconn : (applyOutcome login o).connected = true
          · simp only [hconn, if_true, Option.some.injEq] at h
            subst h
            simp
          · have hconn' : (applyOutcome login o).connected = false := by
              simpa using hconn
            simp only [hconn', Bool.false_eq_true, if_false,
              Option.some.injEq] at h
            subst h
            simp
        | some e =>
          simp only [herr] at h
          by_cases hlo : (applyOutcome login o).errorStatus = some loggedOutCode
          · rw [if_pos hlo] at h
            simp only [Option.some.injEq] at h
            subst h
            simp
          · rw [if_neg hlo] at h
            by_cases h515 : (applyOutcome login o).errorStatus = some 515
            · rw [if_pos h515] at h
              by_cases hgo : ((restartLoginSocket (applyOutcome login o)
                  step.sockRes).2.1 &&
                  isLoginFresh (restartLoginSocket (applyOutcome login o)
                    step.sockRes).1 step.nowRestart) = true
              · rw [if_pos hgo] at h
                obtain ⟨rr, hrr, rfl⟩ := Option.map_eq_some'.mp h
                have hgo' : (restartLoginSocket (applyOutcome login o)
                    step.sockRes).2.1 = true ∧
                    isLoginFresh (restartLoginSocket (applyOutcome login o)
                      step.sockRes).1 step.nowRestart = true := by
                  simpa using hgo
                have hflag := restartLoginSocket_true_flag _ _ hgo'.1
                have hrr0 := ih _ _ rr hrr
                rw [hflag, if_pos rfl] at hrr0
                have hla : login.restartAttempted = false := by
                  cases hla : login.restartAttempted
                  · rfl
                  · exfalso
                    have hfa : (applyOutcome login o).restartAttempted = true := by
                      rw [applyOutcome_restartAttempted, hla]
                    have := hgo'.1
                    simp [restartLoginSocket, hfa] at this
                have hone : restartCloses (restartLoginSocket
                    (applyOutcome login o) step.sockRes).2.2 = 1 := by
                  rw [restartCloses_restartLoginSocket,
                    applyOutcome_restartAttempted, hla]
                  simp
                simp only [restartCloses_append, hone, hla,
                  Bool.false_eq_true, if_false]
                omega
              · rw [if_neg hgo] at h
                simp only [Option.some.injEq] at h
                subst h
                rw [restartCloses_failLogin, restartCloses_restartLoginSocket,
                  applyOutcome_restartAttempted]
            · rw [if_neg h515] at h
              simp only [Option.some.injEq] at h
              subst h
              simp

theorem restartCloses_qrFold (es : List QrEvent) :
    ∀ (r : QrRace) (tr0 : List Ev),
      restartCloses (es.foldl qrRaceStep (r, tr0)).2 = restartCloses tr0 := by
  induction es with
  | nil =>
    intro r tr0
    simp [List.foldl_nil]
  | cons e rest ih =>
    intro r tr0
    cases e with
    | emit c =>
      simp only [List.foldl_cons, qrRaceStep]
      rw [ih]
      cases hr : r.slot with
      | none => simp [onQrCallback, hr]
      | some l =>
        by_cases hq : l.qr.isSome = true
        · simp [onQrCallback, hr, hq]
        · have hq' : l.qr.isSome = false := by simpa using hq
          simp [onQrCallback, hr, hq']
    | timer =>
      simp only [List.foldl_cons, qrRaceStep]
      exact ih _ _

@[simp] theorem restartCloses_runQrEvents (r : QrRace) (es : List QrEvent) :
    restartCloses (runQrEvents r es).2 = 0 := by
  rw [runQrEvents, restartCloses_qrFold]
  rfl

/-- C2 amended: `resetActiveLogin` is the only path that releases a
transport handle EXCEPT the one-time 515 recovery — `restartLoginSocket`
closes the attempt's old socket directly before opening its replacement;
every run of `waitForWebLogin` performs at most one such non-reset close,
and `startWebLoginWithQr` performs none. -/
theorem c2_close_paths :
    (∀ (tms : Option Int) (now0 nowD : Int) (steps : List LoopStep)
        (st : LoginState) (out : LoginState × WaitResult × List Ev),
        waitForWebLogin tms now0 nowD steps st = some out →
        restartCloses out.2.2 ≤ 1) ∧
    (∀ (opts : StartOpts) (o : StartOracle) (st : LoginState),
        restartCloses (startWebLoginWithQr opts o st).2.2 = 0) := by
  constructor
  · intro tms now0 nowD steps st out h
    cases hsl : st.activeLogin with
    | none =>
      simp only [waitForWebLogin, hsl, Option.some.injEq] at h
      subst h
      simp
    | some l =>
      by_cases hf : isLoginFresh l now0 = true
      · simp only [waitForWebLogin, hsl, hf, if_true] at h
        have := waitLoop_restartCloses _ _ _ _ _ h
        exact le_trans this (by cases l.restartAttempted <;> simp)
      · have hf' : isLoginFresh l now0 = false := by simpa using hf
        simp only [waitForWebLogin, hsl, hf', Bool.false_eq_true, if_false,
          Option.some.injEq] at h
        subst h
        simp
  · intro opts o st
    by_cases h1 : (o.hasWeb && !opts.force) = true
    · simp [startWebLoginWithQr, h1]
    · have h1' : (o.hasWeb && !opts.force) = false := by simpa using h1
      by_cases h2 : canReuse st o.now = true
      · simp [startWebLoginWithQr, h1', h2]
      · have h2' : canReuse st o.now = false := by simpa using h2
        cases hs : o.sockRes with
        | err m c =>
          simp [startWebLoginWithQr, h1', h2', hs]
        | ok sid =>
          simp only [startWebLoginWithQr, h1', h2', hs, Bool.false_eq_true,
            if_false]
          split <;> simp

/-- Witness for the amended C2 on the concrete double-515 run: its trace
contains at most one close performed outside `resetActiveLogin`. -/
theorem c2_close_paths_witness :
    restartCloses
        [Ev.logInfo restartNoteMsg, .close 10 .restart, .openSocket 11,
         .close 11 .reset, .logInfo (failedLoginMsg (some "restart required")),
         .logDanger (failedLoginMsg (some "restart required"))] ≤ 1 :=
  c2_close_paths.1 none 0 0
    [⟨1, .settled (.rejected "restart required" (some 515)), .ok 11, 2⟩,
     ⟨3, .settled (.rejected "restart required" (some 515)), .ok 99, 4⟩]
    { activeLogin := some { id := 1, sock := 10, startedAt := 0 } }
    ({ activeLogin := none },
     ⟨false, failedLoginMsg (some "restart required")⟩,
     [Ev.logInfo restartNoteMsg, .close 10 .restart, .openSocket 11,
      .close 11 .reset, .logInfo (failedLoginMsg (some "restart required")),
      .logDanger (failedLoginMsg (some "restart required"))]) (by rfl)

/-- Counterexample to C2 as stated: in the reachable run where a fresh
attempt receives a 515 rejection, `waitForWebLogin` invokes
`restartLoginSocket`, which closes the attempt's old transport handle
directly — not via `resetActiveLogin` — so the trace violates the
"every close goes through reset" predicate. -/
theorem c2_counterexample :
    (waitForWebLogin none 0 0
        [⟨1, .settled (.rejected "restart required" (some 515)), .ok 11, 2⟩,
         ⟨3, .settled (.rejected "restart required" (some 515)), .ok 99, 4⟩]
        { activeLogin := some { id := 1, sock := 10, startedAt := 0 } }).map
      (fun r => onlyResetCloses r.2.2) = some false := by
  rfl

theorem ne_of_headChar (x y : String) (h : x.data.head? ≠ y.data.head?) :
    x ≠ y :=
  fun he => h (he ▸ rfl)

theorem alreadyLinkedMsg_head (who : String) :
    (alreadyLinkedMsg who).data.head? = some 'W' := by
  rw [alreadyLinkedMsg, String.data_append, String.data_append]
  rfl

theorem failedStartMsg_head (m : String) :
    (failedStartMsg m).data.head? = some 'F' := by
  rw [failedStartMsg, String.data_append]
  rfl

theorem failedQrMsg_head (m : String) :
    (failedQrMsg m).data.head? = some 'F' := by
  rw [failedQrMsg, String.data_append]
  rfl

/-- C4: `startWebLoginWithQr` is a total function of its inputs and the
collaborators' outcomes — it never throws; its result record is always one
of the four shapes (already-linked message, reused pending artifact,
newly-rendered artifact, failure message with the transport/timeout error
captured inside), and the four shapes are pairwise distinct (their messages
differ), so exactly one applies. -/
theorem c4_start_total (opts : StartOpts) (o : StartOracle) (st : LoginState) :
    ((∃ who, (startWebLoginWithQr opts o st).2.1 = ⟨none, alreadyLinkedMsg who⟩) ∨
     (∃ u, (startWebLoginWithQr opts o st).2.1 = ⟨some u, qrActiveMsg⟩) ∨
     (∃ u, (startWebLoginWithQr opts o st).2.1 = ⟨some u, scanQrMsg⟩) ∨
     (∃ m, (startWebLoginWithQr opts o st).2.1 = ⟨none, failedStartMsg m⟩ ∨
           (startWebLoginWithQr opts o st).2.1 = ⟨none, failedQrMsg m⟩)) ∧
    (∀ who m : String,
      alreadyLinkedMsg who ≠ qrActiveMsg ∧
      alreadyLinkedMsg who ≠ scanQrMsg ∧
      alreadyLinkedMsg who ≠ failedStartMsg m ∧
      alreadyLinkedMsg who ≠ failedQrMsg m ∧
      qrActiveMsg ≠ scanQrMsg ∧
      qrActiveMsg ≠ failedStartMsg m ∧
      qrActiveMsg ≠ failedQrMsg m ∧
      scanQrMsg ≠ failedStartMsg m ∧
      scanQrMsg ≠ failedQrMsg m) := by
  constructor
  · by_cases h1 : (o.hasWeb && !opts.force) = true
    · exact Or.inl ⟨(o.selfE164.orElse fun _ => o.selfJid).getD "unknown",
        by simp [startWebLoginWithQr, h1]⟩
    · have h1' : (o.hasWeb && !opts.force) = false := by simpa using h1
      by_cases h2 : canReuse st o.now = true
      · cases hsl : st.activeLogin with
        | none => rw [canReuse, hsl] at h2; exact absurd h2 (by simp)
        | some l =>
          have hq : l.qrDataUrl.isSome = true := by
            rw [canReuse, hsl] at h2
            exact (by simpa using h2 : _ ∧ _).2
          obtain ⟨u, hu⟩ := Option.isSome_iff_exists.mp hq
          exact Or.inr (Or.inl ⟨u,
            by simp [startWebLoginWithQr, h1', h2, hsl, hu]⟩)
      · have h2' : canReuse st o.now = false := by simpa using h2
        cases hs : o.sockRes with
        | err m c =>
          exact Or.inr (Or.inr (Or.inr ⟨m,
            Or.inl (by simp [startWebLoginWithQr, h1', h2', hs])⟩))
        | ok sid =>
          simp only [startWebLoginWithQr, h1', h2', hs, Bool.false_eq_true,
            if_false]
          split
          · exact Or.inr (Or.inr (Or.inl ⟨_, rfl⟩))
          · exact Or.inr (Or.inr (Or.inr ⟨_, Or.inr rfl⟩))
          · exact Or.inr (Or.inr (Or.inr ⟨_, Or.inr rfl⟩))
  · intro who m
    refine ⟨?_, ?_, ?_, ?_, by decide, ?_, ?_, ?_, ?_⟩
    · exact ne_of_headChar _ _ (by rw [alreadyLinkedMsg_head]; decide)
    · exact ne_of_headChar _ _ (by rw [alreadyLinkedMsg_head]; decide)
    · exact ne_of_headChar _ _
        (by rw [alreadyLinkedMsg_head, failedStartMsg_head]; decide)
    · exact ne_of_headChar _ _
        (by rw [alreadyLinkedMsg_head, failedQrMsg_head]; decide)
    · exact ne_of_headChar _ _ (by rw [failedStartMsg_head]; decide)
    · exact ne_of_headChar _ _ (by rw [failedQrMsg_head]; decide)
    · exact ne_of_headChar _ _ (by rw [failedStartMsg_head]; decide)
    · exact ne_of_headChar _ _ (by rw [failedQrMsg_head]; decide)

/-- Witness for C4 at a concrete successful run: the result has the
newly-rendered-artifact shape. -/
theorem c4_start_total_witness :
    (∃ who, (startWebLoginWithQr {}
        { hasWeb := false, selfE164 := none, selfJid := none, sockRes := .ok 20,
          newId := 7, now := 0, preEvents := [], postEvents := [.emit "abc"],
          png := fun s => s } { activeLogin := none }).2.1 =
        ⟨none, alreadyLinkedMsg who⟩) ∨
    (∃ u, (startWebLoginWithQr {}
        { hasWeb := false, selfE164 := none, selfJid := none, sockRes := .ok 20,
          newId := 7, now := 0, preEvents := [], postEvents := [.emit "abc"],
          png := fun s => s } { activeLogin := none }).2.1 =
        ⟨some u, qrActiveMsg⟩) ∨
    (∃ u, (startWebLoginWithQr {}
        { hasWeb := false, selfE164 := none, selfJid := none, sockRes := .ok 20,
          newId := 7, now := 0, preEvents := [], postEvents := [.emit "abc"],
          png := fun s => s } { activeLogin := none }).2.1 =
        ⟨some u, scanQrMsg⟩) ∨
    (∃ m, (startWebLoginWithQr {}
        { hasWeb := false, selfE164 := none, selfJid := none, sockRes := .ok 20,
          newId := 7, now := 0, preEvents := [], postEvents := [.emit "abc"],
          png := fun s => s } { activeLogin := none }).2.1 =
        ⟨none, failedStartMsg m⟩ ∨
      (startWebLoginWithQr {}
        { hasWeb := false, selfE164 := none, selfJid := none, sockRes := .ok 20,
          newId := 7, now := 0, preEvents := [], postEvents := [.emit "abc"],
          png := fun s => s } { activeLogin := none }).2.1 =
        ⟨none, failedQrMsg m⟩) :=
  (c4_start_total {} _ _).1

theorem resetActiveLogin_slot (reason : Option String) (st : LoginState) :
    (resetActiveLogin reason st).1.activeLogin = none := by
  cases h : st.activeLogin <;> cases reason <;> simp [resetActiveLogin, h]

/-- While the singleton slot is empty, the QR race ignores emitted codes
entirely: the fold leaves the slot empty, produces no events, and settles
the promise only through the timer's timeout rejection. -/
theorem qrFold_noSlot (es : List QrEvent) :
    ∀ (s0 : Option (Except String String)) (tc : Bool) (tr0 : List Ev),
      (s0 = none ∨ s0 = some (.error qrTimeoutErrMsg)) →
      ∃ s1, es.foldl qrRaceStep (⟨none, s0, tc⟩, tr0) = (⟨none, s1, tc⟩, tr0) ∧
        (s1 = none ∨ s1 = some (.error qrTimeoutErrMsg)) := by
  induction es with
  | nil =>
    intro s0 tc tr0 h
    exact ⟨s0, by simp, h⟩
  | cons e rest ih =>
    intro s0 tc tr0 h
    cases e with
    | emit c =>
      simp only [List.foldl_cons, qrRaceStep, onQrCallback, List.append_nil]
      exact ih s0 tc tr0 h
    | timer =>
      simp only [List.foldl_cons, qrRaceStep, qrTimerFire]
      cases tc with
      | true =>
        simp only [if_true]
        exact ih s0 true tr0 h
      | false =>
        rcases h with h | h
        · subst h
          simp only [Bool.false_eq_true, if_false, Option.isNone_none, if_true]
          exact ih _ false tr0 (Or.inr rfl)
        · subst h
          simp only [Bool.false_eq_true, if_false, Option.isNone_some,
            Bool.false_eq_true, if_false]
          exact ih _ false tr0 (Or.inr rfl)

/-- C10: the linking-code callback mutates nothing when the singleton slot
is empty or when the current attempt already has a code recorded — it
neither resolves the race nor logs.  Consequently, when every code emission
happens before the new `ActiveLogin` is installed (all emissions are
pre-install, none post-install), the code is silently dropped and the
`startWebLoginWithQr` call can only finish through the timeout failure
path: it returns the timed-out failure message and leaves the slot empty. -/
theorem c10_code_before_install (opts : StartOpts) (o : StartOracle)
    (st : LoginState) (sid : Nat)
    (hnos : o.hasWeb = false ∨ opts.force = true)
    (hnoreuse : canReuse st o.now = false)
    (hsock : o.sockRes = .ok sid)
    (hpost : o.postEvents = []) :
    (∀ (qr : String) (r : QrRace), r.slot = none → onQrCallback qr r = (r, [])) ∧
    (∀ (qr : String) (r : QrRace) (l : ActiveLogin), r.slot = some l →
        l.qr.isSome = true → onQrCallback qr r = (r, [])) ∧
    ((startWebLoginWithQr opts o st).1.activeLogin = none ∧
     (startWebLoginWithQr opts o st).2.1 =
       ⟨none, failedQrMsg (stringOfError qrTimeoutErrMsg)⟩) := by
  refine ⟨?_, ?_, ?_⟩
  · intro qr r hr
    simp [onQrCallback, hr]
  · intro qr r l hr hq
    simp [onQrCallback, hr, hq]
  · have h1' : (o.hasWeb && !opts.force) = false := by
      rcases hnos with h | h <;> simp [h]
    simp only [startWebLoginWithQr, h1', Bool.false_eq_true, if_false,
      hnoreuse, hsock, hpost, runQrEvents, List.foldl_nil]
    rw [resetActiveLogin_slot]
    obtain ⟨s1, heq, hs1⟩ := qrFold_noSlot o.preEvents none false [] (Or.inl rfl)
    rw [heq]
    rcases hs1 with hs1 | hs1 <;>
      subst hs1 <;>
        simp [qrTimerFire, resetActiveLogin_slot]

/-- Witness for C10 at a concrete pre-install emission: the call ends with
the timed-out failure and an empty slot. -/
theorem c10_code_before_install_witness :
    (∀ (qr : String) (r : QrRace), r.slot = none → onQrCallback qr r = (r, [])) ∧
    (∀ (qr : String) (r : QrRace) (l : ActiveLogin), r.slot = some l →
        l.qr.isSome = true → onQrCallback qr r = (r, [])) ∧
    ((startWebLoginWithQr {}
        { hasWeb := false, selfE164 := none, selfJid := none, sockRes := .ok 20,
          newId := 7, now := 0, preEvents := [.emit "early"], postEvents := [],
          png := fun s => s } { activeLogin := none }).1.activeLogin = none ∧
     (startWebLoginWithQr {}
        { hasWeb := false, selfE164 := none, selfJid := none, sockRes := .ok 20,
          newId := 7, now := 0, preEvents := [.emit "early"], postEvents := [],
          png := fun s => s } { activeLogin := none }).2.1 =
       ⟨none, failedQrMsg (stringOfError qrTimeoutErrMsg)⟩) :=
  c10_code_before_install {} _ _ 20 (Or.inl rfl) (by decide) rfl rfl

/-- C3 amended: over every course of an attempt's lifetime that the source
can produce (from creation, across an optional 515 restart, to disposal),
`connected` and `error` are never both set at the same instant.  (The
original claim's stronger clause — that at most one of the two ever becomes
set over the whole lifetime — fails across a 515 restart, which clears the
error marker and lets `connected` become set later; see the
counterexample.) -/
theorem c3_markers_exclusive (l0 : ActiveLogin) (evs : List LifeEv)
    (states : List ActiveLogin)
    (hc : l0.connected = false) (he : l0.error = none)
    (h : lifeStates l0 false evs = some states) :
    ∀ s ∈ states, ¬(s.connected = true ∧ s.error.isSome = true) :=
  lifeStates_exclusive evs l0 false (by simp [hc]) (fun _ => ⟨hc, he⟩) states h

/-- Witness for the amended C3 on the concrete restart-then-connect run:
its final state (connected after the restart) does not also carry an
error. -/
theorem c3_markers_exclusive_witness :
    ¬(({ id := 1, sock := 11, startedAt := 0, connected := true,
         restartAttempted := true } : ActiveLogin).connected = true ∧
      ({ id := 1, sock := 11, startedAt := 0, connected := true,
         restartAttempted := true } : ActiveLogin).error.isSome = true) :=
  c3_markers_exclusive { id := 1, sock := 10, startedAt := 0 }
    [.settle (.rejected "restart required" (some 515)), .restart (.ok 11),
     .settle .fulfilled]
    [{ id := 1, sock := 10, startedAt := 0, error := some "restart required",
       errorStatus := some 515 },
     { id := 1, sock := 11, startedAt := 0, restartAttempted := true },
     { id := 1, sock := 11, startedAt := 0, connected := true,
       restartAttempted := true }]
    rfl rfl (by decide)
    { id := 1, sock := 11, startedAt := 0, connected := true,
      restartAttempted := true }
    (by decide)

/-- Counterexample to C3 as stated: in the reachable course where the first
attachment rejects with 515 and the restarted attachment then fulfils, the
error marker is set at the first state and the connected marker at the
third — both markers become set over the one attempt's lifetime. -/
theorem c3_counterexample :
    (lifeStates { id := 1, sock := 10, startedAt := 0 } false
        [.settle (.rejected "restart required" (some 515)), .restart (.ok 11),
         .settle .fulfilled]).map
      (fun ss => (ss.map fun s => s.error.isSome, ss.map fun s => s.connected)) =
      some ([true, false, false], [false, false, true]) := by
  rfl

/-- Witness for C1 at a concrete attempt receiving two 515 rejections. -/
theorem c1_restart_once_witness :
    waitForWebLogin none 0 0
        [⟨1, .settled (.rejected "restart required" (some 515)), .ok 11, 2⟩,
         ⟨3, .settled (.rejected "restart required" (some 515)), .ok 99, 4⟩]
        { activeLogin := some { id := 1, sock := 10, startedAt := 0 } } =
      some ({ activeLogin := none },
        ⟨false, failedLoginMsg (some "restart required")⟩,
        [.logInfo restartNoteMsg, .close 10 .restart, .openSocket 11,
         .close 11 .reset, .logInfo (failedLoginMsg (some "restart required")),
         .logDanger (failedLoginMsg (some "restart required"))]) :=
  (c1_restart_once none 0 0 1 2 3 4
    { activeLogin := some { id := 1, sock := 10, startedAt := 0 } }
    { id := 1, sock := 10, startedAt := 0 } "restart required"
    "restart required" 11 (.ok 99) rfl (by decide) rfl (by norm_num)
    (by norm_num) (by decide)).2.2
